import Mathlib

/-!
Verification of the `universal-mcp/aws-s3` storage adapter
(`src/universal_mcp_aws_s3/app.py`, class `AwsS3App`) against its
natural-language specification.

The adapter is embedded shallowly:

* Python byte strings are `List Nat` (one entry per byte).
* The remote S3 store is a function `bucket → key → Option Bytes`; the
  boto3 client is modelled as primitives acting on a `ClientState` that
  carries the store, an injectable service fault (`botocore ClientError`)
  per client operation, and a trace of the client calls issued.
* A Python method that may let an exception escape is embedded with
  result type `Except ClientError α` (or `Except PyExn α`): `Except.error`
  means a raised exception crossing the adapter boundary, and a
  `try/except` block in the source corresponds to an explicit `match`
  on the primitive's outcome.
* Paginated listings are modelled by the concatenation of the `Contents`
  (resp. `CommonPrefixes`) entries of all pages, which is exactly what
  the source's pagination loops accumulate.
* The external base64 and UTF-8 codecs used by the source
  (`base64.b64decode/b64encode`, `str.encode('utf-8')`,
  `bytes.decode('utf-8')`) are implemented concretely below, following
  RFC 4648 / RFC 3629 as CPython does (non-alphabet characters are
  discarded before base64 decoding, surrogate and overlong forms are
  rejected by the UTF-8 decoder).
-/

deriving instance DecidableEq for Except

namespace AwsS3

/-- A byte string: one `Nat` per byte. -/
abbrev Bytes := List Nat

/-- A service-level error raised by the storage client
(`botocore.exceptions.ClientError`), carrying its rendered message
(`str(e)` in the source). -/
structure ClientError where
  msg : String
deriving DecidableEq

/-! ### String helpers used by the adapter

Python's string primitives are re-implemented structurally over
`String.data` (the core `Pos`-based versions use well-founded recursion
and would not evaluate inside the kernel).  `str.lower()`/`str.upper()`
act on the basic latin letters, which is all the adapter's comparisons
rely on. -/

/-- Python `s.lower()`. -/
def strLower (s : String) : String := ⟨s.data.map Char.toLower⟩

/-- Python `s.upper()`. -/
def strUpper (s : String) : String := ⟨s.data.map Char.toUpper⟩

/-- Python `s.endswith(post)`. -/
def strEndsWith (s post : String) : Bool := post.data.isSuffixOf s.data

/-- Python `s.rstrip('/')`: drop every trailing `'/'`. -/
def rstripSlash (s : String) : String :=
  ⟨(s.data.reverse.dropWhile (fun c => c = '/')).reverse⟩

/-- The key composed by `put_object` / `put_object_from_base64`:
`f"{prefix.rstrip('/')}/{object_name}" if prefix else object_name`. -/
def composeKey (pre object_name : String) : String :=
  if pre ≠ "" then rstripSlash pre ++ "/" ++ object_name else object_name

/-- Python `key.split("/")` on the character list. -/
def splitSlash : List Char → List (List Char)
  | [] => [[]]
  | c :: rest =>
    if c = '/' then [] :: splitSlash rest
    else
      match splitSlash rest with
      | [] => [[c]]
      | h :: t => (c :: h) :: t

/-- Python `key.split("/")[-1]`: the last path segment of a key. -/
def lastSegment (key : String) : String :=
  ⟨(splitSlash key.data).getLastD []⟩

/-- The fixed text-extension set of `get_object_content`. -/
def TEXT_EXTENSIONS : List String :=
  [".txt", ".csv", ".json", ".xml", ".html", ".md", ".js", ".css", ".py"]

/-- `key.lower().endswith(('.txt', '.csv', '.json', '.xml', '.html', '.md',
'.js', '.css', '.py'))` from `get_object_content`. -/
def isTextKey (key : String) : Bool :=
  TEXT_EXTENSIONS.any (fun ext => strEndsWith (strLower key) ext)

/-! ### Base64 (the `base64` module used by the adapter) -/

/-- The base64 alphabet, in index order. -/
def B64_ALPHABET : List Char :=
  "ABCDEFGHIJKLMNOPQRSTUVWXYZabcdefghijklmnopqrstuvwxyz0123456789+/".data

/-- Index lookup in a character list. -/
def idxOf? (c : Char) : List Char → Option Nat
  | [] => none
  | x :: xs => if x = c then some 0 else (idxOf? c xs).map (fun n => n + 1)

/-- The alphabet character for a 6-bit value. -/
def b64Char (n : Nat) : Char := B64_ALPHABET.getD n '='

/-- Encode bytes three at a time into base64 characters, with padding. -/
def b64EncodeGroups : Bytes → List Char
  | [] => []
  | [b0] => [b64Char (b0 / 4), b64Char (b0 % 4 * 16), '=', '=']
  | [b0, b1] => [b64Char (b0 / 4), b64Char (b0 % 4 * 16 + b1 / 16), b64Char (b1 % 16 * 4), '=']
  | b0 :: b1 :: b2 :: rest =>
    b64Char (b0 / 4) :: b64Char (b0 % 4 * 16 + b1 / 16) ::
      b64Char (b1 % 16 * 4 + b2 / 64) :: b64Char (b2 % 64) :: b64EncodeGroups rest

/-- `base64.b64encode(content).decode('ascii')`. -/
def b64encode (bs : Bytes) : String := ⟨b64EncodeGroups bs⟩

/-- Decode base64 characters four at a time; `=` padding is accepted only
at the end of the data, any other malformed group fails. -/
def b64DecodeGroups : List Char → Option Bytes
  | [] => some []
  | c0 :: c1 :: c2 :: c3 :: rest =>
    match idxOf? c0 B64_ALPHABET, idxOf? c1 B64_ALPHABET with
    | some i0, some i1 =>
      if c2 = '=' then
        if c3 = '=' ∧ rest = [] then some [i0 * 4 + i1 / 16] else none
      else
        match idxOf? c2 B64_ALPHABET with
        | some i2 =>
          if c3 = '=' then
            if rest = [] then some [i0 * 4 + i1 / 16, i1 % 16 * 16 + i2 / 4] else none
          else
            match idxOf? c3 B64_ALPHABET with
            | some i3 =>
              (b64DecodeGroups rest).map
                (fun bs => (i0 * 4 + i1 / 16) :: (i1 % 16 * 16 + i2 / 4) :: (i2 % 4 * 64 + i3) :: bs)
            | none => none
        | none => none
    | _, _ => none
  | _ => none

/-- `base64.b64decode(base64_content)`: characters outside the alphabet
(and outside padding) are discarded first, then the rest must form whole
base64 groups; `none` models the `binascii.Error` raised otherwise. -/
def b64decode (s : String) : Option Bytes :=
  b64DecodeGroups (s.data.filter (fun c => c = '=' ∨ (idxOf? c B64_ALPHABET).isSome))

/-! ### UTF-8 (`str.encode('utf-8')` / `bytes.decode('utf-8')`) -/

/-- UTF-8 encoding of one Unicode scalar value (RFC 3629). -/
def utf8EncodeChar (c : Nat) : List Nat :=
  if c < 128 then [c]
  else if c < 2048 then [192 + c / 64, 128 + c % 64]
  else if c < 65536 then [224 + c / 4096, 128 + c / 64 % 64, 128 + c % 64]
  else [240 + c / 262144, 128 + c / 4096 % 64, 128 + c / 64 % 64, 128 + c % 64]

/-- UTF-8 encoding of a sequence of scalar values. -/
def utf8EncodeList (l : List Nat) : List Nat :=
  (l.map utf8EncodeChar).flatten

/-- `content.encode('utf-8')` for a Python `str` modelled as a Lean
`String` (a list of Unicode scalar values). -/
def utf8EncodeStr (s : String) : Bytes :=
  utf8EncodeList (s.data.map Char.toNat)

/-- Strict UTF-8 decoding (RFC 3629): rejects continuation-byte errors,
overlong forms, surrogates and values above `0x10FFFF`, exactly as
CPython's `bytes.decode('utf-8')` does; `none` models the raised
`UnicodeDecodeError`. -/
def utf8Decode : List Nat → Option (List Nat)
  | [] => some []
  | b0 :: rest =>
    if b0 < 128 then (utf8Decode rest).map (fun l => b0 :: l)
    else if b0 < 194 then none
    else if b0 < 224 then
      match rest with
      | [] => none
      | b1 :: rest1 =>
        if 128 ≤ b1 ∧ b1 < 192 then
          (utf8Decode rest1).map (fun l => ((b0 - 192) * 64 + (b1 - 128)) :: l)
        else none
    else if b0 < 240 then
      match rest with
      | [] => none
      | b1 :: rest1 =>
        match rest1 with
        | [] => none
        | b2 :: rest2 =>
          if (128 ≤ b1 ∧ b1 < 192) ∧ (128 ≤ b2 ∧ b2 < 192) then
            if 2048 ≤ (b0 - 224) * 4096 + (b1 - 128) * 64 + (b2 - 128) ∧
                ((b0 - 224) * 4096 + (b1 - 128) * 64 + (b2 - 128) < 55296 ∨
                  57343 < (b0 - 224) * 4096 + (b1 - 128) * 64 + (b2 - 128)) then
              (utf8Decode rest2).map
                (fun l => ((b0 - 224) * 4096 + (b1 - 128) * 64 + (b2 - 128)) :: l)
            else none
          else none
    else if b0 < 245 then
      match rest with
      | [] => none
      | b1 :: rest1 =>
        match rest1 with
        | [] => none
        | b2 :: rest2 =>
          match rest2 with
          | [] => none
          | b3 :: rest3 =>
            if (128 ≤ b1 ∧ b1 < 192) ∧ (128 ≤ b2 ∧ b2 < 192) ∧ (128 ≤ b3 ∧ b3 < 192) then
              if 65536 ≤ (b0 - 240) * 262144 + (b1 - 128) * 4096 + (b2 - 128) * 64 + (b3 - 128) ∧
                  (b0 - 240) * 262144 + (b1 - 128) * 4096 + (b2 - 128) * 64 + (b3 - 128) < 1114112 then
                (utf8Decode rest3).map
                  (fun l => ((b0 - 240) * 262144 + (b1 - 128) * 4096 + (b2 - 128) * 64 + (b3 - 128)) :: l)
              else none
            else none
    else none

/-- `content.decode('utf-8')` returning a Lean `String`. -/
def utf8DecodeStr (bs : Bytes) : Option String :=
  (utf8Decode bs).map (fun l => String.mk (l.map Char.ofNat))

/-! ### Number formatting (`f"{x:.2f}"`)

The source divides a byte total repeatedly by `1024.0`.  Dividing an IEEE
double by 1024 only decrements its exponent, so for byte totals below
`2^53` every intermediate value is exactly `total / 1024^i`; the loop's
running float is therefore represented exactly by the pair
`(total, 1024^i)` of numerator and denominator.  `f"{x:.2f}"` rounds to
two decimals with round half to even, which `formatPair2` implements on
that exact value. -/

/-- Left-pad a two-digit fractional part with `0`. -/
def pad2 (n : Nat) : String := if n < 10 then "0" ++ toString n else toString n

/-- `f"{x:.2f}"` for the exact nonnegative value `n / d` (`d > 0`):
round `100 * n / d` half to even, then print with two decimals. -/
def formatPair2 (n d : Nat) : String :=
  let q := 100 * n / d
  let r := 100 * n % d
  let m := if 2 * r < d then q else if d < 2 * r then q + 1 else if q % 2 = 0 then q else q + 1
  toString (m / 100) ++ "." ++ pad2 (m % 100)

/-- The unit list of `get_bucket_size`'s conversion loop. -/
def SIZE_UNITS : List String := ["B", "KB", "MB", "GB", "TB"]

/-- The `for unit in [...]: if total_size < 1024.0: ... break;
total_size /= 1024.0 else: ... PB` loop of `get_bucket_size`; the running
float value is carried exactly as the pair `(n, d)`, so `ts < 1024.0`
is `n < 1024 * d` and `ts /= 1024.0` multiplies the denominator. -/
def humanLoop : List String → Nat → Nat → String
  | [], n, d => formatPair2 n d ++ " PB"
  | u :: rest, n, d =>
    if n < 1024 * d then formatPair2 n d ++ " " ++ u else humanLoop rest n (1024 * d)

/-- The spec's description of the human-readable size: repeated division
by 1024 through B/KB/MB/GB/TB, falling through to PB for anything larger
(stated as a direct case split on the total's magnitude). -/
def humanReadableSpec (total : Nat) : String :=
  if total < 1024 then formatPair2 total 1 ++ " B"
  else if total < 1024 ^ 2 then formatPair2 total 1024 ++ " KB"
  else if total < 1024 ^ 3 then formatPair2 total (1024 ^ 2) ++ " MB"
  else if total < 1024 ^ 4 then formatPair2 total (1024 ^ 3) ++ " GB"
  else if total < 1024 ^ 5 then formatPair2 total (1024 ^ 4) ++ " TB"
  else formatPair2 total (1024 ^ 5) ++ " PB"

/-! ### Object listing (`list_objects` and its consumers) -/

/-- One entry of a `list_objects_v2` page's `Contents`, with the
`LastModified` timestamp already rendered to its ISO string. -/
structure S3ListEntry where
  Key : String
  Size : Nat
  LastModified : String
deriving DecidableEq

/-- One dictionary of `list_objects`' result list. -/
structure ObjDict where
  key : String
  name : String
  size : Nat
  last_modified : String
deriving DecidableEq

/-- The page-processing loop of `list_objects`: keep the non-folder
entries (key not ending in `/`) and project the four fields.  `contents`
is the concatenation of the `Contents` of all pages. -/
def objectsOfContents (contents : List S3ListEntry) : List ObjDict :=
  (contents.filter (fun o => !strEndsWith o.Key "/")).map
    (fun o => { key := o.Key, name := lastSegment o.Key, size := o.Size,
                last_modified := o.LastModified })

/-- `list_objects(bucket_name, prefix)`: the paginator either raises a
service error while iterating (no `try/except` in the source, so it
propagates) or yields the pages whose `Contents` concatenate to
`contents`. -/
def list_objects (fault : Option ClientError) (contents : List S3ListEntry) :
    Except ClientError (List ObjDict) :=
  match fault with
  | some e => Except.error e
  | none => Except.ok (objectsOfContents contents)

/-- Python `pattern in name` (substring containment) on char lists. -/
def listContains (hay pat : List Char) : Bool :=
  match hay with
  | [] => pat.isEmpty
  | _ :: t => pat.isPrefixOf hay || listContains t pat

/-- Python `pattern in name` on strings. -/
def strContains (hay pat : String) : Bool := listContains hay.data pat.data

/-- Python truthiness of an `Optional[int]`: `None` and `0` are falsy. -/
def truthy : Option Nat → Bool
  | none => false
  | some n => n != 0

/-- The filter body of `search_objects` (the three `continue` tests). -/
def passesFilters (obj : ObjDict) (name_pattern : String)
    (min_size max_size : Option Nat) : Bool :=
  if name_pattern ≠ "" ∧ ¬ strContains (strLower obj.name) (strLower name_pattern) then false
  else if truthy min_size ∧ obj.size < min_size.getD 0 then false
  else if truthy max_size ∧ max_size.getD 0 < obj.size then false
  else true

/-- `search_objects(bucket_name, prefix, name_pattern, min_size, max_size)`:
a client-side filter over `list_objects`. -/
def search_objects (fault : Option ClientError) (contents : List S3ListEntry)
    (name_pattern : String) (min_size max_size : Option Nat) :
    Except ClientError (List ObjDict) := do
  let all_objects ← list_objects fault contents
  return all_objects.filter (fun obj => passesFilters obj name_pattern min_size max_size)

/-- The dictionary returned by `get_bucket_size`. -/
structure BucketSizeDict where
  total_size_bytes : Nat
  human_readable_size : String
  object_count : Nat
deriving DecidableEq

/-- `get_bucket_size(bucket_name, prefix)`. -/
def get_bucket_size (fault : Option ClientError) (contents : List S3ListEntry) :
    Except ClientError BucketSizeDict := do
  let objects ← list_objects fault contents
  let total : Nat := (objects.map (fun o => o.size)).sum
  return { total_size_bytes := total,
           human_readable_size := humanLoop SIZE_UNITS total 1,
           object_count := objects.length }

/-! ### The boto3 client model for object-level operations -/

/-- Ambient per-object response metadata of `head_object` that is not
derived from the stored bytes. -/
structure ObjectMeta where
  lastModified : Option String
  contentType : Option String
  etag : Option String
  userMetadata : List (String × String)

/-- The modelled boto3 S3 client: the remote store, one injectable
service fault per client operation, and the trace of client calls
issued. -/
structure ClientState where
  store : String → String → Option Bytes
  meta : String → String → ObjectMeta
  putFault : Option ClientError
  getFault : Option ClientError
  headFault : Option ClientError
  copyFault : Option ClientError
  deleteFault : Option ClientError
  calls : List String

/-- Record a client call in the trace. -/
def ClientState.traced (cs : ClientState) (op : String) : ClientState :=
  { cs with calls := cs.calls ++ [op] }

/-- Store update at one (bucket, key). -/
def storePut (st : String → String → Option Bytes) (bucket key : String) (body : Bytes) :
    String → String → Option Bytes :=
  fun b k => if b = bucket ∧ k = key then some body else st b k

/-- Store removal at one (bucket, key). -/
def storeDel (st : String → String → Option Bytes) (bucket key : String) :
    String → String → Option Bytes :=
  fun b k => if b = bucket ∧ k = key then none else st b k

/-- `client.put_object(Bucket=…, Key=…, Body=…)`. -/
def client_put_object (cs : ClientState) (bucket key : String) (body : Bytes) :
    ClientState × Except ClientError Unit :=
  let cs1 := cs.traced "put_object"
  match cs1.putFault with
  | some e => (cs1, Except.error e)
  | none => ({ cs1 with store := storePut cs1.store bucket key body }, Except.ok ())

/-- `client.get_object(Bucket=…, Key=…)` followed by `.read()`; a missing
key is a service error (`NoSuchKey`). -/
def client_get_object (cs : ClientState) (bucket key : String) :
    ClientState × Except ClientError Bytes :=
  let cs1 := cs.traced "get_object"
  match cs1.getFault with
  | some e => (cs1, Except.error e)
  | none =>
    match cs1.store bucket key with
    | some body => (cs1, Except.ok body)
    | none => (cs1, Except.error { msg := "NoSuchKey" })

/-- `client.copy_object(CopySource=…, Bucket=…, Key=…)`. -/
def client_copy_object (cs : ClientState) (source_bucket source_key dest_bucket dest_key : String) :
    ClientState × Except ClientError Unit :=
  let cs1 := cs.traced "copy_object"
  match cs1.copyFault with
  | some e => (cs1, Except.error e)
  | none =>
    match cs1.store source_bucket source_key with
    | some body =>
      ({ cs1 with store := storePut cs1.store dest_bucket dest_key body }, Except.ok ())
    | none => (cs1, Except.error { msg := "NoSuchKey" })

/-- `client.delete_object(Bucket=…, Key=…)` (S3 delete succeeds whether
or not the key exists). -/
def client_delete_object (cs : ClientState) (bucket key : String) :
    ClientState × Except ClientError Unit :=
  let cs1 := cs.traced "delete_object"
  match cs1.deleteFault with
  | some e => (cs1, Except.error e)
  | none => ({ cs1 with store := storeDel cs1.store bucket key }, Except.ok ())

/-- The `head_object` response dictionary (every field read through
`.get`, hence optional). -/
structure HeadResponse where
  ContentLength : Option Nat
  LastModified : Option String
  ContentType : Option String
  ETag : Option String
  Metadata : Option (List (String × String))

/-- `client.head_object(Bucket=…, Key=…)`. -/
def client_head_object (cs : ClientState) (bucket key : String) :
    ClientState × Except ClientError HeadResponse :=
  let cs1 := cs.traced "head_object"
  match cs1.headFault with
  | some e => (cs1, Except.error e)
  | none =>
    match cs1.store bucket key with
    | some body =>
      (cs1, Except.ok { ContentLength := some body.length,
                        LastModified := (cs1.meta bucket key).lastModified,
                        ContentType := (cs1.meta bucket key).contentType,
                        ETag := (cs1.meta bucket key).etag,
                        Metadata := some (cs1.meta bucket key).userMetadata })
    | none => (cs1, Except.error { msg := "404" })

/-! ### Adapter object operations -/

/-- `put_object(bucket_name, prefix, object_name, content)` — there is no
`try/except` in the source, so a client fault propagates. -/
def put_object (cs : ClientState) (bucket_name pre object_name content : String) :
    ClientState × Except ClientError Bool :=
  let key := composeKey pre object_name
  let r := client_put_object cs bucket_name key (utf8EncodeStr content)
  match r.2 with
  | Except.ok _ => (r.1, Except.ok true)
  | Except.error e => (r.1, Except.error e)

/-- `put_object_from_base64(bucket_name, prefix, object_name,
base64_content)` — the whole body is wrapped in `try/except Exception`,
so a decode failure or a client fault yields `False`. -/
def put_object_from_base64 (cs : ClientState) (bucket_name pre object_name base64_content : String) :
    ClientState × Except ClientError Bool :=
  match b64decode base64_content with
  | none => (cs, Except.ok false)
  | some content =>
    let r := client_put_object cs bucket_name (composeKey pre object_name) content
    match r.2 with
    | Except.ok _ => (r.1, Except.ok true)
    | Except.error _ => (r.1, Except.ok false)

/-- The key whose value is the object body in `get_object_content`'s
result dictionary: `content` (decoded text) or `content_base64`. -/
inductive ContentPayload
  | content (text : String)
  | content_base64 (b64 : String)
deriving DecidableEq

/-- The dictionary returned by `get_object_content`: either the four-field
success dictionary or `{"error": message}`. -/
inductive ContentResult
  | ok (name : String) (content_type : String) (payload : ContentPayload) (size : Nat)
  | err (error : String)
deriving DecidableEq

/-- A Python exception escaping `get_object_content`: only `ClientError`
is caught there, so the `UnicodeDecodeError` of `content.decode('utf-8')`
propagates. -/
inductive PyExn
  | clientError (e : ClientError)
  | unicodeDecodeError
deriving DecidableEq

/-- `get_object_content(bucket_name, key)`. -/
def get_object_content (cs : ClientState) (bucket_name key : String) :
    ClientState × Except PyExn ContentResult :=
  let r := client_get_object cs bucket_name key
  match r.2 with
  | Except.error e => (r.1, Except.ok (ContentResult.err e.msg))
  | Except.ok content =>
    if isTextKey key then
      match utf8DecodeStr content with
      | some text =>
        (r.1, Except.ok (ContentResult.ok (lastSegment key) "text"
          (ContentPayload.content text) content.length))
      | none => (r.1, Except.error PyExn.unicodeDecodeError)
    else
      (r.1, Except.ok (ContentResult.ok (lastSegment key) "binary"
        (ContentPayload.content_base64 (b64encode content)) content.length))

/-- The success dictionary of `get_object_metadata`. -/
structure MetaDict where
  key : String
  name : String
  size : Nat
  last_modified : String
  content_type : String
  etag : String
  metadata : List (String × String)
deriving DecidableEq

/-- The dictionary returned by `get_object_metadata`. -/
inductive MetaResult
  | ok (d : MetaDict)
  | err (error : String)
deriving DecidableEq

/-- `get_object_metadata(bucket_name, key)`. -/
def get_object_metadata (cs : ClientState) (bucket_name key : String) :
    ClientState × Except ClientError MetaResult :=
  let r := client_head_object cs bucket_name key
  match r.2 with
  | Except.error e => (r.1, Except.ok (MetaResult.err e.msg))
  | Except.ok response =>
    (r.1, Except.ok (MetaResult.ok {
      key := key,
      name := lastSegment key,
      size := response.ContentLength.getD 0,
      last_modified := match response.LastModified with | some s => s | none => "",
      content_type := response.ContentType.getD "",
      etag := response.ETag.getD "",
      metadata := response.Metadata.getD [] }))

/-- `copy_object(source_bucket, source_key, dest_bucket, dest_key)`. -/
def copy_object (cs : ClientState) (source_bucket source_key dest_bucket dest_key : String) :
    ClientState × Except ClientError Bool :=
  let r := client_copy_object cs source_bucket source_key dest_bucket dest_key
  match r.2 with
  | Except.ok _ => (r.1, Except.ok true)
  | Except.error _ => (r.1, Except.ok false)

/-- `delete_object(bucket_name, key)`. -/
def delete_object (cs : ClientState) (bucket_name key : String) :
    ClientState × Except ClientError Bool :=
  let r := client_delete_object cs bucket_name key
  match r.2 with
  | Except.ok _ => (r.1, Except.ok true)
  | Except.error _ => (r.1, Except.ok false)

/-- `move_object(source_bucket, source_key, dest_bucket, dest_key)`:
`if self.copy_object(...): return self.delete_object(...); return False`. -/
def move_object (cs : ClientState) (source_bucket source_key dest_bucket dest_key : String) :
    ClientState × Except ClientError Bool :=
  match copy_object cs source_bucket source_key dest_bucket dest_key with
  | (cs1, Except.ok true) => delete_object cs1 source_bucket source_key
  | (cs1, _) => (cs1, Except.ok false)

/-- The key composed by `put_prefix`:
`f"{parent_prefix.rstrip('/')}/{prefix_name}/" if parent_prefix else f"{prefix_name}/"`. -/
def put_prefix_key (prefix_name : String) (parent : Option String) : String :=
  match parent with
  | some p => if p ≠ "" then rstripSlash p ++ "/" ++ prefix_name ++ "/" else prefix_name ++ "/"
  | none => prefix_name ++ "/"

/-- `put_prefix(bucket_name, prefix_name, parent_prefix)` — writes a
zero-byte marker object; no `try/except`, so a client fault propagates. -/
def put_prefix (cs : ClientState) (bucket_name prefix_name : String) (parent : Option String) :
    ClientState × Except ClientError Bool :=
  let r := client_put_object cs bucket_name ( put_prefix_key prefix_name parent) []
  match r.2 with
  | Except.ok _ => (r.1, Except.ok true)
  | Except.error e => (r.1, Except.error e)

/-! ### Bucket-level operations

These issue exactly one client call whose outcome is modelled by an
`Option ClientError` fault (plus a canned success response where the
adapter post-processes one). -/

/-- One entry of the `Buckets` list of a `list_buckets` response. -/
structure BucketEntry where
  Name : String
deriving DecidableEq

/-- `list_buckets()` — no `try/except`, a client fault propagates. -/
def list_buckets (fault : Option ClientError) (resp : List BucketEntry) :
    Except ClientError (List String) :=
  match fault with
  | some e => Except.error e
  | none => Except.ok (resp.map (fun b => b.Name))

/-- `create_bucket(bucket_name, region)` — `try/except ClientError`
collapses any service error to `False` (with or without a
`CreateBucketConfiguration`). -/
def create_bucket (fault : Option ClientError) (_bucket_name : String) (_region : Option String) :
    Except ClientError Bool :=
  match fault with
  | some _ => Except.ok false
  | none => Except.ok true

/-- `delete_bucket(bucket_name)`. -/
def delete_bucket (fault : Option ClientError) (_bucket_name : String) :
    Except ClientError Bool :=
  match fault with
  | some _ => Except.ok false
  | none => Except.ok true

/-- A JSON document (the bucket policy).  The source round-trips the
policy through `json.loads`/`json.dumps`; the wire serialization is
modelled as the identity on structured values. -/
inductive Json where
  | null
  | bool (b : Bool)
  | num (n : Int)
  | str (s : String)
  | arr (elems : List Json)
  | obj (fields : List (String × Json))

/-- The dictionary returned by `get_bucket_policy`: the parsed policy or
`{"error": message}`. -/
inductive PolicyResult
  | ok (policy : Json)
  | err (error : String)

/-- `get_bucket_policy(bucket_name)` — `resp` is the client call's
outcome, carrying the policy document on success. -/
def get_bucket_policy (resp : Except ClientError Json) : Except ClientError PolicyResult :=
  match resp with
  | Except.ok p => Except.ok (PolicyResult.ok p)
  | Except.error e => Except.ok (PolicyResult.err e.msg)

/-- `put_bucket_policy(bucket_name, policy)`. -/
def put_bucket_policy (fault : Option ClientError) (_bucket_name : String) (_policy : Json) :
    Except ClientError Bool :=
  match fault with
  | some _ => Except.ok false
  | none => Except.ok true

/-- One entry of a page's `CommonPrefixes` (`cp.get('Prefix')`). -/
structure CommonPrefixEntry where
  pfx : Option String

/-- `list_prefixes(bucket_name, prefix)` — no `try/except`, a paginator
fault propagates; `pages` is the concatenation of all pages'
`CommonPrefixes`. -/
def list_prefixes (fault : Option ClientError) (pages : List CommonPrefixEntry)
    (_bucket_name : String) (_pre : Option String) : Except ClientError (List (Option String)) :=
  match fault with
  | some e => Except.error e
  | none => Except.ok (pages.map (fun cp => cp.pfx))

/-- One entry of a `delete_objects` response's `Deleted` list
(`obj.get('Key')`). -/
structure DeletedEntry where
  Key : Option String

/-- The `Deleted`/`Errors` parts of a `delete_objects` response; the
per-object error dictionaries are passed through verbatim. -/
structure DeleteObjectsResponse where
  Deleted : List DeletedEntry
  Errors : List Json

/-- The dictionary returned by `delete_objects`. -/
inductive DeleteObjectsResult
  | ok (deleted : List (Option String)) (errors : List Json)
  | err (error : String)

/-- `delete_objects(bucket_name, keys)`. -/
def delete_objects (fault : Option ClientError) (resp : DeleteObjectsResponse)
    (_bucket_name : String) (_keys : List String) : Except ClientError DeleteObjectsResult :=
  match fault with
  | some e => Except.ok (DeleteObjectsResult.err e.msg)
  | none =>
    Except.ok (DeleteObjectsResult.ok (resp.Deleted.map (fun d => d.Key)) resp.Errors)

/-! ### Presigned URLs -/

/-- The arguments the adapter passes to
`client.generate_presigned_url`. -/
structure PresignParams where
  operation : String
  bucket : String
  key : String
  expiresIn : Nat
deriving DecidableEq

/-- The literal `method_map` of `generate_presigned_url`. -/
def method_map : List (String × String) :=
  [("GET", "get_object"), ("PUT", "put_object"), ("DELETE", "delete_object")]

/-- Python `dict.get(k, default)` on an association list. -/
def dictGetD (m : List (String × String)) (k d : String) : String :=
  match m.find? (fun p => p.1 == k) with
  | some p => p.2
  | none => d

/-- `generate_presigned_url(bucket_name, key, expiration, http_method)`;
`presign` is the client's signing primitive.  The result is always
`Except.ok`: the `try/except ClientError` turns a fault into the string
`f"Error: {str(e)}"`. -/
def generate_presigned_url (presign : PresignParams → Except ClientError String)
    (bucket_name key : String) (expiration : Nat) (http_method : String) :
    Except ClientError String :=
  match presign { operation := dictGetD method_map (strUpper http_method) "get_object",
                  bucket := bucket_name, key := key, expiresIn := expiration } with
  | Except.ok url => Except.ok url
  | Except.error e => Except.ok ("Error: " ++ e.msg)

/-! ### The tool registry -/

/-- The operations returned by `list_tools`, in source order. -/
def list_tools : List String :=
  ["create_bucket", "delete_bucket", "get_bucket_policy", "put_bucket_policy",
   "list_prefixes", "put_prefix", "list_objects", "put_object",
   "put_object_from_base64", "get_object_content", "get_object_metadata",
   "copy_object", "move_object", "delete_object", "delete_objects",
   "generate_presigned_url", "search_objects", "get_bucket_size"]

/-- Modelled from the spec: the operations enumerated in the component
design (§4 of the specification), which the registration claim compares
against `list_tools`. -/
def SPEC_OPERATIONS : List String :=
  ["list_buckets", "create_bucket", "delete_bucket", "get_bucket_policy",
   "put_bucket_policy", "list_prefixes", "put_prefix", "list_objects",
   "search_objects", "get_bucket_size", "put_object", "put_object_from_base64",
   "get_object_content", "get_object_metadata", "copy_object", "move_object",
   "delete_object", "delete_objects", "generate_presigned_url"]

/-! ### Concrete states for instantiating the theorems -/

/-- A store holding a single object. -/
def singleStore (bucket key : String) (body : Bytes) : String → String → Option Bytes :=
  fun b k => if b = bucket ∧ k = key then some body else none

/-- A client with an empty store and no injected faults. -/
def baseState : ClientState :=
  { store := fun _ _ => none,
    meta := fun _ _ => { lastModified := none, contentType := none, etag := none,
                         userMetadata := [] },
    putFault := none, getFault := none, headFault := none,
    copyFault := none, deleteFault := none, calls := [] }

/-!
## Theorems

Supporting lemmas first (UTF-8 round-trip, store and loop lemmas), then
one theorem per claim of the specification review.
-/

set_option maxRecDepth 4096
theorem utf8Decode_one (b0 : Nat) (tl : List Nat) (h : b0 < 128) :
    utf8Decode (b0 :: tl) = (utf8Decode tl).map (fun l => b0 :: l) := by
  rw [utf8Decode.eq_def]
  dsimp only
  rw [if_pos h]

theorem utf8Decode_two (b0 b1 : Nat) (tl : List Nat)
    (h0 : 194 ≤ b0) (h0' : b0 < 224) (h1 : 128 ≤ b1) (h1' : b1 < 192) :
    utf8Decode (b0 :: b1 :: tl) =
      (utf8Decode tl).map (fun l => ((b0 - 192) * 64 + (b1 - 128)) :: l) := by
  rw [utf8Decode.eq_def]
  dsimp only
  rw [if_neg (by omega), if_neg (by omega), if_pos (by omega)]
  rw [if_pos (by omega)]

theorem utf8Decode_three (b0 b1 b2 : Nat) (tl : List Nat)
    (h0 : 224 ≤ b0) (h0' : b0 < 240) (h1 : 128 ≤ b1) (h1' : b1 < 192)
    (h2 : 128 ≤ b2) (h2' : b2 < 192)
    (hval : 2048 ≤ (b0 - 224) * 4096 + (b1 - 128) * 64 + (b2 - 128))
    (hval2 : (b0 - 224) * 4096 + (b1 - 128) * 64 + (b2 - 128) < 55296 ∨
             57343 < (b0 - 224) * 4096 + (b1 - 128) * 64 + (b2 - 128)) :
    utf8Decode (b0 :: b1 :: b2 :: tl) =
      (utf8Decode tl).map (fun l => ((b0 - 224) * 4096 + (b1 - 128) * 64 + (b2 - 128)) :: l) := by
  rw [utf8Decode.eq_def]
  dsimp only
  rw [if_neg (by omega), if_neg (by omega), if_neg (by omega), if_pos (by omega)]
  rw [if_pos (by exact ⟨⟨h1, h1'⟩, h2, h2'⟩), if_pos (by exact ⟨hval, hval2⟩)]

theorem utf8Decode_four (b0 b1 b2 b3 : Nat) (tl : List Nat)
    (h0 : 240 ≤ b0) (h0' : b0 < 245) (h1 : 128 ≤ b1) (h1' : b1 < 192)
    (h2 : 128 ≤ b2) (h2' : b2 < 192) (h3 : 128 ≤ b3) (h3' : b3 < 192)
    (hval : 65536 ≤ (b0 - 240) * 262144 + (b1 - 128) * 4096 + (b2 - 128) * 64 + (b3 - 128))
    (hval2 : (b0 - 240) * 262144 + (b1 - 128) * 4096 + (b2 - 128) * 64 + (b3 - 128) < 1114112) :
    utf8Decode (b0 :: b1 :: b2 :: b3 :: tl) =
      (utf8Decode tl).map
        (fun l => ((b0 - 240) * 262144 + (b1 - 128) * 4096 + (b2 - 128) * 64 + (b3 - 128)) :: l) := by
  rw [utf8Decode.eq_def]
  dsimp only
  rw [if_neg (by omega), if_neg (by omega), if_neg (by omega), if_neg (by omega), if_pos (by omega)]
  rw [if_pos (by exact ⟨⟨h1, h1'⟩, ⟨h2, h2'⟩, h3, h3'⟩), if_pos (by exact ⟨hval, hval2⟩)]
theorem utf8Decode_encodeChar (c : Nat)
    (h : c < 55296 ∨ (57343 < c ∧ c < 1114112)) (tl : List Nat) :
    utf8Decode (utf8EncodeChar c ++ tl) = (utf8Decode tl).map (fun l => c :: l) := by
  rcases Nat.lt_or_ge c 128 with h1 | h1
  · have e : utf8EncodeChar c = [c] := by unfold utf8EncodeChar; rw [if_pos h1]
    rw [e, List.cons_append, List.nil_append]
    exact utf8Decode_one c tl h1
  · rcases Nat.lt_or_ge c 2048 with h2 | h2
    · have e : utf8EncodeChar c = [192 + c / 64, 128 + c % 64] := by
        unfold utf8EncodeChar; rw [if_neg (by omega), if_pos h2]
      rw [e]
      simp only [List.cons_append, List.nil_append]
      rw [utf8Decode_two (192 + c / 64) (128 + c % 64) tl (by omega) (by omega) (by omega) (by omega)]
      have hv : (192 + c / 64 - 192) * 64 + (128 + c % 64 - 128) = c := by omega
      rw [hv]
    · rcases Nat.lt_or_ge c 65536 with h3 | h3
      · have e : utf8EncodeChar c = [224 + c / 4096, 128 + c / 64 % 64, 128 + c % 64] := by
          unfold utf8EncodeChar; rw [if_neg (by omega), if_neg (by omega), if_pos h3]
        rw [e]
        simp only [List.cons_append, List.nil_append]
        have hv : (224 + c / 4096 - 224) * 4096 + (128 + c / 64 % 64 - 128) * 64 + (128 + c % 64 - 128) = c := by
          omega
        rw [utf8Decode_three (224 + c / 4096) (128 + c / 64 % 64) (128 + c % 64) tl
          (by omega) (by omega) (by omega) (by omega) (by omega) (by omega)
          (by omega) (by omega)]
        rw [hv]
      · have e : utf8EncodeChar c =
            [240 + c / 262144, 128 + c / 4096 % 64, 128 + c / 64 % 64, 128 + c % 64] := by
          unfold utf8EncodeChar; rw [if_neg (by omega), if_neg (by omega), if_neg (by omega)]
        rw [e]
        simp only [List.cons_append, List.nil_append]
        have hv : (240 + c / 262144 - 240) * 262144 + (128 + c / 4096 % 64 - 128) * 4096 +
            (128 + c / 64 % 64 - 128) * 64 + (128 + c % 64 - 128) = c := by
          omega
        rw [utf8Decode_four (240 + c / 262144) (128 + c / 4096 % 64) (128 + c / 64 % 64) (128 + c % 64) tl
          (by omega) (by omega) (by omega) (by omega) (by omega) (by omega) (by omega) (by omega)
          (by omega) (by omega)]
        rw [hv]

theorem utf8Decode_encodeList (l : List Nat)
    (h : ∀ c ∈ l, c < 55296 ∨ (57343 < c ∧ c < 1114112)) :
    utf8Decode (utf8EncodeList l) = some l := by
  induction l with
  | nil => rfl
  | cons c cs ih =>
    have hc := h c (List.mem_cons_self c cs)
    have hcs : ∀ x ∈ cs, x < 55296 ∨ (57343 < x ∧ x < 1114112) :=
      fun x hx => h x (List.mem_cons_of_mem c hx)
    show utf8Decode (utf8EncodeList (c :: cs)) = some (c :: cs)
    have : utf8EncodeList (c :: cs) = utf8EncodeChar c ++ utf8EncodeList cs := by
      simp [utf8EncodeList]
    rw [this, utf8Decode_encodeChar c hc, ih hcs]
    rfl

theorem char_toNat_valid (c : Char) :
    c.toNat < 55296 ∨ (57343 < c.toNat ∧ c.toNat < 1114112) := by
  rcases c.valid with h | ⟨ha, hb⟩
  · left; exact h
  · right; exact ⟨ha, hb⟩

theorem map_ofNat_toNat (l : List Char) : (l.map Char.toNat).map Char.ofNat = l := by
  induction l with
  | nil => rfl
  | cons a t ih => simp [Char.ofNat_toNat, ih]

theorem utf8DecodeStr_encodeStr (s : String) : utf8DecodeStr (utf8EncodeStr s) = some s := by
  unfold utf8DecodeStr utf8EncodeStr
  rw [utf8Decode_encodeList _ (by
    intro c hc
    obtain ⟨ch, _, rfl⟩ := List.mem_map.1 hc
    exact char_toNat_valid ch)]
  show some (String.mk ((s.data.map Char.toNat).map Char.ofNat)) = some s
  rw [map_ofNat_toNat]
theorem strAppend_assoc (a b c : String) : a ++ b ++ c = a ++ (b ++ c) := by
  cases a with | mk la =>
  cases b with | mk lb =>
  cases c with | mk lc =>
  show String.mk (la ++ lb ++ lc) = String.mk (la ++ (lb ++ lc))
  rw [List.append_assoc]

theorem humanLoop_eq_spec (n : Nat) : humanLoop SIZE_UNITS n 1 = humanReadableSpec n := by
  unfold humanReadableSpec
  simp only [SIZE_UNITS, humanLoop]
  norm_num
  by_cases h1 : n < 1024
  · rw [if_pos h1, if_pos h1, strAppend_assoc]; rfl
  · rw [if_neg h1, if_neg h1]
    by_cases h2 : n < 1048576
    · rw [if_pos h2, if_pos h2, strAppend_assoc]; rfl
    · rw [if_neg h2, if_neg h2]
      by_cases h3 : n < 1073741824
      · rw [if_pos h3, if_pos h3, strAppend_assoc]; rfl
      · rw [if_neg h3, if_neg h3]
        by_cases h4 : n < 1099511627776
        · rw [if_pos h4, if_pos h4, strAppend_assoc]; rfl
        · rw [if_neg h4, if_neg h4]
          by_cases h5 : n < 1125899906842624
          · rw [if_pos h5, if_pos h5, strAppend_assoc]; rfl
          · rw [if_neg h5, if_neg h5]

/-- C2: `move_object` is copy-then-delete: it returns `true` exactly when
both steps succeed and `false` otherwise; when the copy succeeds and the
delete fails the copy is not rolled back (the object is at both source
and destination) and the call returns `false`; when the copy fails the
delete is never attempted. -/
theorem C2_move_object (cs : ClientState) (sb sk db dk : String) (body : Bytes)
    (hsrc : cs.store sb sk = some body) :
    (((move_object cs sb sk db dk).2 = Except.ok true) ↔
      (cs.copyFault = none ∧ cs.deleteFault = none)) ∧
    (∀ e, cs.copyFault = none → cs.deleteFault = some e →
      (move_object cs sb sk db dk).2 = Except.ok false ∧
      (move_object cs sb sk db dk).1.store sb sk = some body ∧
      (move_object cs sb sk db dk).1.store db dk = some body) ∧
    (∀ e, cs.copyFault = some e →
      (move_object cs sb sk db dk).2 = Except.ok false ∧
      (move_object cs sb sk db dk).1.calls = cs.calls ++ ["copy_object"]) ∧
    (cs.copyFault = none → cs.deleteFault = none →
      (move_object cs sb sk db dk).2 = Except.ok true ∧
      (move_object cs sb sk db dk).1.calls = cs.calls ++ ["copy_object", "delete_object"] ∧
      (¬(db = sb ∧ dk = sk) →
        (move_object cs sb sk db dk).1.store db dk = some body ∧
        (move_object cs sb sk db dk).1.store sb sk = none)) := by
  rcases hc : cs.copyFault with _ | ec <;> rcases hd : cs.deleteFault with _ | ed <;>
    simp only [move_object, copy_object, client_copy_object, delete_object,
      client_delete_object, ClientState.traced, hsrc, hc, hd, storePut, storeDel] <;>
    simp [hsrc, storePut, storeDel]

theorem passesFilters_eq_spec (o : ObjDict) (np : String) (mn mx : Option Nat) :
    passesFilters o np mn mx =
      ((np == "" || strContains (strLower o.name) (strLower np)) &&
       (match mn with | none => true | some m => m == 0 || decide (m ≤ o.size)) &&
       (match mx with | none => true | some m => m == 0 || decide (o.size ≤ m))) := by
  have hAf : ∀ (h : np ≠ "" ∧ ¬strContains (strLower o.name) (strLower np) = true),
      (np == "" || strContains (strLower o.name) (strLower np)) = false := by
    intro h
    obtain ⟨hne, hnc⟩ := h
    rw [Bool.not_eq_true] at hnc
    simp [hne, hnc]
  have hA : ∀ (h : ¬(np ≠ "" ∧ ¬strContains (strLower o.name) (strLower np) = true)),
      (np == "" || strContains (strLower o.name) (strLower np)) = true := by
    intro h
    rw [not_and_or, Decidable.not_not, Bool.not_eq_true] at h
    rcases h with h | h <;> simp [h]
  have hB : ∀ (m : Nat), ¬((m != 0) = true ∧ o.size < m) →
      (m == 0 || decide (m ≤ o.size)) = true := by
    intro m h
    rw [not_and_or] at h
    rcases h with h | h
    · rw [bne_iff_ne, Decidable.not_not] at h; simp [h]
    · simp [decide_eq_true (not_lt.mp h)]
  have hBf : ∀ (m : Nat), ((m != 0) = true ∧ o.size < m) →
      (m == 0 || decide (m ≤ o.size)) = false := by
    intro m h
    obtain ⟨hm, hlt⟩ := h
    rw [bne_iff_ne] at hm
    simp [hm, decide_eq_false (not_le.mpr hlt)]
  have hC : ∀ (m : Nat), ¬((m != 0) = true ∧ m < o.size) →
      (m == 0 || decide (o.size ≤ m)) = true := by
    intro m h
    rw [not_and_or] at h
    rcases h with h | h
    · rw [bne_iff_ne, Decidable.not_not] at h; simp [h]
    · simp [decide_eq_true (not_lt.mp h)]
  have hCf : ∀ (m : Nat), ((m != 0) = true ∧ m < o.size) →
      (m == 0 || decide (o.size ≤ m)) = false := by
    intro m h
    obtain ⟨hm, hlt⟩ := h
    rw [bne_iff_ne] at hm
    simp [hm, decide_eq_false (not_le.mpr hlt)]
  rcases mn with _ | m1 <;> rcases mx with _ | m2 <;>
    simp only [passesFilters, truthy, Option.getD, Bool.false_eq_true, false_and,
      if_false] <;> split_ifs with h1 h2 h3
  · rw [hAf h1]; rfl
  · rw [hA h1]; rfl
  · rw [hAf h1]; rfl
  · rw [hCf m2 h2]; simp
  · rw [hA h1, hC m2 h2]; rfl
  · rw [hAf h1]; rfl
  · rw [hBf m1 h2]; simp
  · rw [hA h1, hB m1 h2]; rfl
  · rw [hAf h1]; rfl
  · rw [hBf m1 h2]; simp
  · rw [hCf m2 h3]; simp
  · rw [hA h1, hB m1 h2, hC m2 h3]; rfl
/-- C2 witness: with one object at `("b", "src")` and a delete fault
injected, the move returns `false` and the object ends up at both the
source and the destination. -/
theorem C2_witness :
    (move_object { baseState with
        store := singleStore "b" "src" [1, 2],
        deleteFault := some { msg := "boom" } } "b" "src" "b" "dst").2 = Except.ok false ∧
    (move_object { baseState with
        store := singleStore "b" "src" [1, 2],
        deleteFault := some { msg := "boom" } } "b" "src" "b" "dst").1.store "b" "src" = some [1, 2] ∧
    (move_object { baseState with
        store := singleStore "b" "src" [1, 2],
        deleteFault := some { msg := "boom" } } "b" "src" "b" "dst").1.store "b" "dst" = some [1, 2] :=
  (C2_move_object _ "b" "src" "b" "dst" [1, 2] (by simp [singleStore, baseState])).2.1
    { msg := "boom" } rfl rfl

/-- C1 (amended): every operation whose body is wrapped in `try/except`
(`create_bucket`, `delete_bucket`, `get_bucket_policy`,
`put_bucket_policy`, `put_object_from_base64`, `get_object_content`,
`get_object_metadata`, `copy_object`, `move_object`, `delete_object`,
`delete_objects`, `generate_presigned_url`) converts a service error into
its declared value shape (`false`, an `error`-field dictionary, or an
`Error: `-prefixed string); the operations without a `try/except` —
`put_object`, `put_prefix`, `list_objects`, `list_buckets`,
`list_prefixes`, and the `list_objects`-based `search_objects` and
`get_bucket_size` — let the raw service exception reach the caller. -/
theorem C1_error_shapes (e : ClientError) (cs : ClientState)
    (bn k sb sk db dk pn p n c b64c : String) (rg pp : Option String)
    (pol : Json) (resp : List BucketEntry) (pages : List CommonPrefixEntry)
    (dresp : DeleteObjectsResponse) (contents : List S3ListEntry)
    (keys : List String) (np : String) (mn mx : Option Nat)
    (ex : Nat) (m : String) :
    create_bucket (some e) bn rg = Except.ok false ∧
    delete_bucket (some e) bn = Except.ok false ∧
    get_bucket_policy (Except.error e) = Except.ok (PolicyResult.err e.msg) ∧
    put_bucket_policy (some e) bn pol = Except.ok false ∧
    ( put_object_from_base64 { cs with putFault := some e } bn p n b64c).2 = Except.ok false ∧
    (get_object_content { cs with getFault := some e } bn k).2 =
      Except.ok (ContentResult.err e.msg) ∧
    (get_object_metadata { cs with headFault := some e } bn k).2 =
      Except.ok (MetaResult.err e.msg) ∧
    (copy_object { cs with copyFault := some e } sb sk db dk).2 = Except.ok false ∧
    (move_object { cs with copyFault := some e } sb sk db dk).2 = Except.ok false ∧
    (move_object { cs with copyFault := none, deleteFault := some e } sb sk db dk).2 =
      Except.ok false ∧
    (delete_object { cs with deleteFault := some e } bn k).2 = Except.ok false ∧
    delete_objects (some e) dresp bn keys = Except.ok (DeleteObjectsResult.err e.msg) ∧
    generate_presigned_url (fun _ => Except.error e) bn k ex m =
      Except.ok ("Error: " ++ e.msg) ∧
    ( put_object { cs with putFault := some e } bn p n c).2 = Except.error e ∧
    ( put_prefix { cs with putFault := some e } bn pn pp).2 = Except.error e ∧
    list_objects (some e) contents = Except.error e ∧
    list_buckets (some e) resp = Except.error e ∧
    list_prefixes (some e) pages bn pp = Except.error e ∧
    search_objects (some e) contents np mn mx = Except.error e ∧
    get_bucket_size (some e) contents = Except.error e := by
  refine ⟨rfl, rfl, rfl, rfl, ?_, rfl, rfl, rfl, rfl, ?_, rfl, rfl, rfl, rfl, rfl, rfl, rfl,
    rfl, rfl, rfl⟩
  · cases hb : b64decode b64c <;>
      simp [put_object_from_base64, client_put_object, ClientState.traced, hb]
  · rcases hs : cs.store sb sk with _ | body <;>
      simp [move_object, copy_object, client_copy_object, delete_object,
        client_delete_object, ClientState.traced, hs]

/-- C1 counterexample: the claim as stated is false — `put_object` has no
`try/except`, so a service error raised by the client's put call reaches
the caller as a raw exception instead of the declared `false`. -/
theorem C1_counterexample :
    ( put_object { baseState with putFault := some { msg := "ServiceError" } }
        "b" "" "k.txt" "hi").2 = Except.error { msg := "ServiceError" } := rfl

/-- C3: on a fetched body, `get_object_content` classifies by the
lowercased key's extension against the fixed text-extension set, returns
UTF-8-decoded text under `content` (tag `text`) for text keys and base64
under `content_base64` (tag `binary`) otherwise, always with the derived
name and the byte length; a service failure (fault or missing key)
yields an `error`-field dictionary instead of an exception. -/
theorem C3_get_object_content (cs : ClientState) (bucket key : String) :
    (∀ body text, cs.getFault = none → cs.store bucket key = some body →
      isTextKey key = true → utf8DecodeStr body = some text →
      (get_object_content cs bucket key).2 =
        Except.ok (ContentResult.ok (lastSegment key) "text"
          (ContentPayload.content text) body.length)) ∧
    (∀ body, cs.getFault = none → cs.store bucket key = some body → isTextKey key = false →
      (get_object_content cs bucket key).2 =
        Except.ok (ContentResult.ok (lastSegment key) "binary"
          (ContentPayload.content_base64 (b64encode body)) body.length)) ∧
    (∀ e, cs.getFault = some e →
      (get_object_content cs bucket key).2 = Except.ok (ContentResult.err e.msg)) ∧
    (cs.getFault = none → cs.store bucket key = none →
      (get_object_content cs bucket key).2 = Except.ok (ContentResult.err "NoSuchKey")) := by
  refine ⟨?_, ?_, ?_, ?_⟩
  · intro body text hf hs ht hd
    simp [get_object_content, client_get_object, ClientState.traced, hf, hs, ht, hd]
  · intro body hf hs ht
    simp [get_object_content, client_get_object, ClientState.traced, hf, hs, ht]
  · intro e hf
    simp [get_object_content, client_get_object, ClientState.traced, hf]
  · intro hf hs
    simp [get_object_content, client_get_object, ClientState.traced, hf, hs]

/-- C3 witness: a `.txt` key decodes to text, a `.png` key returns
base64, both with derived name and byte size. -/
theorem C3_witness :
    (get_object_content { baseState with
        store := singleStore "b" "docs/a.txt" (utf8EncodeStr "hi") } "b" "docs/a.txt").2 =
      Except.ok (ContentResult.ok "a.txt" "text" (ContentPayload.content "hi") 2) ∧
    (get_object_content { baseState with
        store := singleStore "b" "img.png" [137, 80] } "b" "img.png").2 =
      Except.ok (ContentResult.ok "img.png" "binary" (ContentPayload.content_base64 "iVA=") 2) :=
  ⟨(C3_get_object_content _ "b" "docs/a.txt").1 (utf8EncodeStr "hi") "hi" rfl
      (by simp [singleStore, baseState]) (by decide) rfl,
   (C3_get_object_content _ "b" "img.png").2.1 [137, 80] rfl
      (by simp [singleStore, baseState]) (by decide)⟩

/-- C4 (amended): for every bucket, prefix, object name and text payload
WHOSE COMPOSED KEY has a text extension, a successful `put_object`
followed by `get_object_content` on the composed key returns the exact
payload under the `content` field.  (As stated the claim is false: for a
composed key without a text extension the body comes back base64-encoded
under `content_base64`, see the counterexample.) -/
theorem C4_put_get_roundtrip (cs : ClientState) (bucket pre object_name content : String)
    (hput : cs.putFault = none) (hget : cs.getFault = none)
    (htext : isTextKey (composeKey pre object_name) = true) :
    ( put_object cs bucket pre object_name content).2 = Except.ok true ∧
    (get_object_content ( put_object cs bucket pre object_name content).1
        bucket (composeKey pre object_name)).2 =
      Except.ok (ContentResult.ok (lastSegment (composeKey pre object_name)) "text"
        (ContentPayload.content content) (utf8EncodeStr content).length) := by
  constructor
  · simp [put_object, client_put_object, ClientState.traced, hput]
  · simp [put_object, client_put_object, ClientState.traced, hput,
      get_object_content, client_get_object, hget, storePut, htext,
      utf8DecodeStr_encodeStr]

/-- C4 counterexample: the round-trip claim fails for the object name
`a.bin` — the stored text comes back base64-encoded under
`content_base64`, not under `content`. -/
theorem C4_counterexample :
    (get_object_content ( put_object baseState "b" "" "a.bin" "hi").1 "b" "a.bin").2 =
      Except.ok (ContentResult.ok "a.bin" "binary" (ContentPayload.content_base64 "aGk=") 2) ∧
    (get_object_content ( put_object baseState "b" "" "a.bin" "hi").1 "b" "a.bin").2 ≠
      Except.ok (ContentResult.ok "a.bin" "text" (ContentPayload.content "hi") 2) := by
  constructor
  · rfl
  · decide

/-- C4 witness: the round-trip at the concrete key `docs/a.txt` with
payload `"hi"`. -/
theorem C4_witness :
    ( put_object baseState "b" "docs/" "a.txt" "hi").2 = Except.ok true ∧
    (get_object_content ( put_object baseState "b" "docs/" "a.txt" "hi").1
        "b" (composeKey "docs/" "a.txt")).2 =
      Except.ok (ContentResult.ok "a.txt" "text" (ContentPayload.content "hi") 2) :=
  ⟨(C4_put_get_roundtrip baseState "b" "docs/" "a.txt" "hi" rfl rfl (by decide)).1,
   (C4_put_get_roundtrip baseState "b" "docs/" "a.txt" "hi" rfl rfl (by decide)).2⟩

/-- C5 (amended): `get_bucket_size` returns `total_size_bytes` equal to
the sum of the listed objects' sizes, `object_count` equal to their
number, and the human-readable string obtained by repeated division by
1024 through B/KB/MB/GB/TB with PB fallthrough; in particular for
objects of sizes 500, 1500 and 300000 bytes it returns
`total_size_bytes = 302000` (the claim's `301800` misstates the sum) and
the KB string `"294.92 KB"`. -/
theorem C5_get_bucket_size (contents : List S3ListEntry) :
    get_bucket_size none contents =
      Except.ok { total_size_bytes := ((objectsOfContents contents).map (fun o => o.size)).sum,
                  human_readable_size :=
                    humanReadableSpec (((objectsOfContents contents).map (fun o => o.size)).sum),
                  object_count := (objectsOfContents contents).length } ∧
    get_bucket_size none [⟨"a", 500, ""⟩, ⟨"b", 1500, ""⟩, ⟨"c", 300000, ""⟩] =
      Except.ok { total_size_bytes := 302000, human_readable_size := "294.92 KB",
                  object_count := 3 } ∧
    strEndsWith "294.92 KB" "KB" = true := by
  refine ⟨?_, by decide, by decide⟩
  simp only [get_bucket_size, list_objects, Except.bind, bind, pure]
  rw [humanLoop_eq_spec]
  rfl

/-- C5 counterexample: on sizes 500, 1500, 300000 the adapter returns
`total_size_bytes = 302000`, not the claimed `301800` (the claim's
arithmetic is wrong: 500 + 1500 + 300000 = 302000). -/
theorem C5_counterexample :
    get_bucket_size none [⟨"a", 500, ""⟩, ⟨"b", 1500, ""⟩, ⟨"c", 300000, ""⟩] =
      Except.ok { total_size_bytes := 302000, human_readable_size := "294.92 KB",
                  object_count := 3 } ∧
    (302000 : Nat) ≠ 301800 := ⟨by decide, by decide⟩
/-- C6 (amended): `search_objects` returns exactly the listed objects
whose display name contains `name_pattern` as a case-insensitive
substring (no name filter when the pattern is empty) and whose size lies
within the inclusive bounds, EACH BOUND APPLIED ONLY WHEN SUPPLIED AND
NONZERO (Python truthiness treats a zero bound as absent — see the
counterexample), preserving the listing order. -/
theorem C6_search_objects (contents : List S3ListEntry) (np : String) (mn mx : Option Nat) :
    search_objects none contents np mn mx =
      Except.ok ((objectsOfContents contents).filter (fun o =>
        (np == "" || strContains (strLower o.name) (strLower np)) &&
        (match mn with | none => true | some m => m == 0 || decide (m ≤ o.size)) &&
        (match mx with | none => true | some m => m == 0 || decide (o.size ≤ m)))) := by
  simp only [search_objects, list_objects, Except.bind, bind, pure, Except.pure]
  have hp : ∀ o ∈ objectsOfContents contents,
      passesFilters o np mn mx = _ := fun o _ => passesFilters_eq_spec o np mn mx
  rw [List.filter_congr hp]

/-- C6 counterexample: with `max_size = 0` supplied, an object of size 5
is returned although 5 exceeds the stated inclusive upper bound 0 — the
bound is not applied. -/
theorem C6_counterexample :
    search_objects none [{ Key := "k", Size := 5, LastModified := "" }] "" none (some 0) =
      Except.ok [{ key := "k", name := "k", size := 5, last_modified := "" }] ∧
    ¬((5 : Nat) ≤ 0) := ⟨by decide, by decide⟩

/-- C10: `search_objects` with `max_size = 0` applies no upper size bound
at all — the call behaves exactly as if no `max_size` had been supplied,
because Python truthiness treats the zero bound as absent. -/
theorem C10_max_size_zero_unbounded (contents : List S3ListEntry) (np : String)
    (mn : Option Nat) :
    search_objects none contents np mn (some 0) = search_objects none contents np mn none := by
  simp only [search_objects, list_objects, Except.bind, bind, pure, Except.pure]
  have hp : ∀ o ∈ objectsOfContents contents,
      passesFilters o np mn (some 0) = passesFilters o np mn none := by
    intro o _
    simp [passesFilters, truthy]
  rw [List.filter_congr hp]

/-- C7: `generate_presigned_url` maps GET/PUT/DELETE (after uppercasing)
to the corresponding signing operations, falls back to `get_object` for
every unrecognized method, returns the signed URL on success and an
`Error: `-prefixed plain string (never an exception) on a service
failure. -/
theorem C7_generate_presigned_url (presign : PresignParams → Except ClientError String)
    (bn k : String) (ex : Nat) (m : String) :
    dictGetD method_map "GET" "get_object" = "get_object" ∧
    dictGetD method_map "PUT" "get_object" = "put_object" ∧
    dictGetD method_map "DELETE" "get_object" = "delete_object" ∧
    (strUpper m ∉ ["GET", "PUT", "DELETE"] →
      dictGetD method_map (strUpper m) "get_object" = "get_object") ∧
    (∀ url, presign { operation := dictGetD method_map (strUpper m) "get_object",
                      bucket := bn, key := k, expiresIn := ex } = Except.ok url →
      generate_presigned_url presign bn k ex m = Except.ok url) ∧
    (∀ e, presign { operation := dictGetD method_map (strUpper m) "get_object",
                    bucket := bn, key := k, expiresIn := ex } = Except.error e →
      generate_presigned_url presign bn k ex m = Except.ok ("Error: " ++ e.msg)) := by
  refine ⟨rfl, rfl, rfl, ?_, ?_, ?_⟩
  · intro hm
    simp only [List.mem_cons, List.not_mem_nil, or_false, not_or] at hm
    obtain ⟨n1, n2, n3⟩ := hm
    have e1 : ("GET" == strUpper m) = false := beq_eq_false_iff_ne.mpr (Ne.symm n1)
    have e2 : ("PUT" == strUpper m) = false := beq_eq_false_iff_ne.mpr (Ne.symm n2)
    have e3 : ("DELETE" == strUpper m) = false := beq_eq_false_iff_ne.mpr (Ne.symm n3)
    simp [dictGetD, method_map, List.find?, e1, e2, e3]
  · intro url h
    simp [generate_presigned_url, h]
  · intro e h
    simp [generate_presigned_url, h]

/-- C7 witness: an unrecognized method (`PATCH`) still signs (mapped to
`get_object`) and returns the URL; a failing client yields the
`Error: `-prefixed string. -/
theorem C7_witness :
    generate_presigned_url (fun _ => Except.ok "https://signed") "b" "k" 60 "PATCH" =
      Except.ok "https://signed" ∧
    generate_presigned_url (fun _ => Except.error { msg := "boom" }) "b" "k" 60 "get" =
      Except.ok ("Error: " ++ "boom") ∧
    dictGetD method_map (strUpper "PATCH") "get_object" = "get_object" :=
  ⟨(C7_generate_presigned_url (fun _ => Except.ok "https://signed") "b" "k" 60 "PATCH").2.2.2.2.1
      "https://signed" rfl,
   (C7_generate_presigned_url (fun _ => Except.error { msg := "boom" }) "b" "k" 60 "get").2.2.2.2.2
      { msg := "boom" } rfl,
   (C7_generate_presigned_url (fun _ => Except.ok "x") "b" "k" 60 "PATCH").2.2.2.1 (by decide)⟩

/-- C8: `put_object_from_base64` returns `false` without raising when the
base64 payload fails to decode; on a valid payload it writes the decoded
bytes at the composed key, so `get_object_metadata` on that key reports
a size equal to the decoded byte length; a write failure also yields
`false` rather than an exception. -/
theorem C8_put_object_from_base64 (cs : ClientState) (bn p n b64c : String) :
    (b64decode b64c = none → put_object_from_base64 cs bn p n b64c = (cs, Except.ok false)) ∧
    (∀ content, b64decode b64c = some content → cs.putFault = none → cs.headFault = none →
      ( put_object_from_base64 cs bn p n b64c).2 = Except.ok true ∧
      (∃ d, (get_object_metadata ( put_object_from_base64 cs bn p n b64c).1
          bn (composeKey p n)).2 = Except.ok (MetaResult.ok d) ∧ d.size = content.length)) ∧
    (∀ e content, cs.putFault = some e → b64decode b64c = some content →
      ( put_object_from_base64 cs bn p n b64c).2 = Except.ok false) := by
  refine ⟨?_, ?_, ?_⟩
  · intro h
    simp [put_object_from_base64, h]
  · intro content hb hput hhead
    constructor
    · simp [put_object_from_base64, hb, client_put_object, ClientState.traced, hput]
    · simp only [put_object_from_base64, hb, client_put_object, ClientState.traced, hput,
        get_object_metadata, client_head_object, hhead, storePut]
      norm_num
  · intro e content hput hb
    simp [put_object_from_base64, hb, client_put_object, ClientState.traced, hput]

/-- C8 witness: `"a"` is not valid base64 (returns `false`, no client
call); `"aGVsbG8="` decodes to five bytes and the metadata size is 5. -/
theorem C8_witness :
    put_object_from_base64 baseState "b" "" "f.bin" "a" = (baseState, Except.ok false) ∧
    ( put_object_from_base64 baseState "b" "" "f.bin" "aGVsbG8=").2 = Except.ok true ∧
    (∃ d, (get_object_metadata ( put_object_from_base64 baseState "b" "" "f.bin" "aGVsbG8=").1
        "b" (composeKey "" "f.bin")).2 = Except.ok (MetaResult.ok d) ∧ d.size = 5) :=
  ⟨(C8_put_object_from_base64 baseState "b" "" "f.bin" "a").1 rfl,
   ((C8_put_object_from_base64 baseState "b" "" "f.bin" "aGVsbG8=").2.1
      [104, 101, 108, 108, 111] rfl rfl rfl).1,
   ((C8_put_object_from_base64 baseState "b" "" "f.bin" "aGVsbG8=").2.1
      [104, 101, 108, 108, 111] rfl rfl rfl).2⟩

/-- C9 (amended): the registration list `list_tools` contains every
operation enumerated in the component design EXCEPT `list_buckets`,
which is the one §4 operation the adapter does not register. -/
theorem C9_list_tools :
    (SPEC_OPERATIONS.filter (fun op => op != "list_buckets")).all
      (fun op => list_tools.contains op) = true ∧
    "list_buckets" ∉ list_tools := ⟨by decide, by decide⟩

/-- C9 counterexample: `list_buckets` is enumerated in the component
design but absent from the registration list, so the claim as stated is
false. -/
theorem C9_counterexample :
    "list_buckets" ∈ SPEC_OPERATIONS ∧ "list_buckets" ∉ list_tools := ⟨by decide, by decide⟩

end AwsS3
